import Mathlib

/-!
Shallow embedding of the Flappy-Birb simulation core (src/main.ts).

JavaScript numbers are modelled as rationals (ℚ); every arithmetic
operation the embedded code performs (addition, subtraction,
multiplication, division by non-zero constants, comparison, min/max)
is exact on the inputs the program manipulates, so ℚ is a faithful
carrier for the structural properties considered here.

The single call to randomNum(4, 10) that a tick can make (lazily, in
exactly one branch of the bounce-velocity conditional) is modelled by
an explicit parameter `r` of `tick`: `r` stands for the value that
draw would return.  Properties quantify over `r`.
-/

namespace FlappyBirb

/-- Viewport width in pixels (Viewport.CANVAS_WIDTH in the source). -/
def CANVAS_WIDTH : ℚ := 600

/-- Viewport height in pixels (Viewport.CANVAS_HEIGHT in the source). -/
def CANVAS_HEIGHT : ℚ := 400

/-- Bird sprite width in pixels (Birb.WIDTH in the source). -/
def BIRB_WIDTH : ℚ := 42

/-- Bird sprite height in pixels (Birb.HEIGHT in the source). -/
def BIRB_HEIGHT : ℚ := 30

/-- Pipe width in pixels (Constants.PIPE_WIDTH in the source). -/
def PIPE_WIDTH : ℚ := 50

/-- Milliseconds per simulation tick (Constants.TICK_RATE_MS in the source). -/
def TICK_RATE_MS : ℚ := 50

/-- Downward acceleration per tick (Constants.GRAVITY = 1.6 in the source). -/
def GRAVITY : ℚ := 8/5

/-- Upward flap impulse (Constants.FLAP in the source). -/
def FLAP : ℚ := 10

/-- Horizontal scroll of the field per tick (Constants.SCROLL in the source). -/
def SCROLL : ℚ := 7

/-- Horizontal drift of the bird per tick (Constants.BIRD_X in the source). -/
def BIRD_X : ℚ := 3

/-- A spawned obstacle (type Pipe in the source). -/
structure Pipe where
  id : ℚ
  frame : ℚ
  gapY : ℚ
  gapHeight : ℚ
deriving DecidableEq, Repr

/-- A scheduled obstacle descriptor (type ScheduleItem in the source). -/
structure ScheduleItem where
  appearTime : ℚ
  gapY : ℚ
  gapHeight : ℚ
deriving DecidableEq, Repr

/-- The immutable game state (type State in the source). -/
structure State where
  gameEnd : Bool
  birdY : ℚ
  birdVelocity : ℚ
  scrollX : ℚ
  pipes : List Pipe
  nextPipe : ℚ
  nextPipeX : ℚ
  birdX : ℚ
  birdLives : ℚ
  hitCooldown : ℚ
  score : ℚ
  elapsedMs : ℚ
  pending : List ScheduleItem
  totalPipes : ℚ
deriving DecidableEq, Repr

/-- Initial state built from a pending schedule (InitialState in the source).
The literal 0.3 of the source is the exact rational 3/10 here. -/
def InitialState (pending : List ScheduleItem) : State :=
  { gameEnd := false
    birdY := CANVAS_HEIGHT / 2 - BIRB_HEIGHT / 2
    birdVelocity := 0
    scrollX := 0
    pipes := []
    nextPipe := 0
    nextPipeX := 0
    birdX := CANVAS_WIDTH * (3/10) - BIRB_WIDTH / 2
    birdLives := 3
    hitCooldown := 0
    score := 0
    elapsedMs := 0
    pending := pending
    totalPipes := (pending.length : ℚ) }

/-- Axis-aligned rectangle (type Rect in the source). -/
structure Rect where
  x : ℚ
  y : ℚ
  width : ℚ
  height : ℚ
deriving DecidableEq, Repr

/-- Rectangle intersection test (overlap in the source): four strict
half-plane comparisons. -/
def overlap (a b : Rect) : Bool :=
  decide (a.x < b.x + b.width) && decide (a.x + a.width > b.x) &&
    decide (a.y < b.y + b.height) && decide (a.y + a.height > b.y)

/-- Result record of pipeRects in the source. -/
structure PipeRectPair where
  top : Rect
  bottom : Rect
deriving DecidableEq, Repr

/-- Decomposition of a pipe into its top and bottom solid rectangles
(pipeRects in the source). -/
def pipeRects (p : Pipe) : PipeRectPair :=
  let topHeight := p.gapY - p.gapHeight / 2
  let bottomY := p.gapY + p.gapHeight / 2
  let bottomHeight := CANVAS_HEIGHT - bottomY
  { top := { x := p.frame, y := 0, width := PIPE_WIDTH, height := topHeight }
    bottom := { x := p.frame, y := bottomY, width := PIPE_WIDTH, height := bottomHeight } }

/-- The three collision classifications returned by collisionType. -/
inductive CollisionSide where
  | TOP : CollisionSide
  | BOTTOM : CollisionSide
  | NONE : CollisionSide
deriving DecidableEq, Repr

/-- Collision classification (collisionType in the source): TOP if the bird
touches the ceiling or any top pipe rectangle, else BOTTOM if it touches the
floor or any bottom pipe rectangle, else NONE. -/
def collisionType (bird : Rect) (pipes : List Pipe) : CollisionSide :=
  let topScreen := decide (bird.y ≤ 0)
  let bottomScreen := decide (bird.y + bird.height ≥ CANVAS_HEIGHT)
  let anyTopPipeHit := (pipes.map pipeRects).any (fun pr => overlap bird pr.top)
  let anyBottomPipeHit := (pipes.map pipeRects).any (fun pr => overlap bird pr.bottom)
  if topScreen || anyTopPipeHit then CollisionSide.TOP
  else if bottomScreen || anyBottomPipeHit then CollisionSide.BOTTOM
  else CollisionSide.NONE

/-- Clamp a value into an inclusive range (clamp in the source). -/
def clamp (x lo hi : ℚ) : ℚ := max lo (min hi x)

/-! Locals of `tick` in the source, lifted to top-level definitions with the
source's names so each step can be reasoned about separately. -/

/-- Local elapsedMsNext of tick: clock after this tick. -/
def elapsedMsNext (s : State) : ℚ := s.elapsedMs + TICK_RATE_MS

/-- Local due of tick: pending items whose appearTime lies in
(elapsedMs, elapsedMs + TICK_RATE_MS]. -/
def dueItems (s : State) : List ScheduleItem :=
  s.pending.filter fun it =>
    decide (it.appearTime > s.elapsedMs) && decide (it.appearTime ≤ elapsedMsNext s)

/-- Local pendingAfter of tick: pending items that appear strictly after this
tick. -/
def pendingAfter (s : State) : List ScheduleItem :=
  s.pending.filter fun it => decide (it.appearTime > elapsedMsNext s)

/-- Local scrollPerMs of tick. -/
def scrollPerMs : ℚ := SCROLL / TICK_RATE_MS

/-- Local newPipes of tick: one pipe per due item, ids assigned from
s.nextPipe by position in the due list. -/
def newPipes (s : State) : List Pipe :=
  (dueItems s).enum.map fun p =>
    { id := s.nextPipe + (p.1 : ℚ)
      frame := scrollPerMs * p.2.appearTime + CANVAS_WIDTH + PIPE_WIDTH
      gapY := p.2.gapY
      gapHeight := p.2.gapHeight }

/-- Local velocity of tick: velocity after gravity. -/
def velocityNext (s : State) : ℚ := s.birdVelocity + GRAVITY

/-- Local Y of tick: raw vertical position after gravity. -/
def rawY (s : State) : ℚ := s.birdY + velocityNext s

/-- Local maxX of tick: horizontal cap for the bird. -/
def maxX : ℚ := (CANVAS_WIDTH - BIRB_WIDTH) / 2

/-- Local nextX of tick: capped horizontal position after drift. -/
def nextX (s : State) : ℚ := min maxX (s.birdX + BIRD_X)

/-- Local inFramePipes of tick: old and newly spawned pipes whose right edge
has not scrolled behind the viewport. -/
def inFramePipes (s : State) : List Pipe :=
  (s.pipes ++ newPipes s).filter fun p => decide (p.frame + PIPE_WIDTH ≥ s.scrollX)

/-- Local birdFrameX of tick: bird x in world coordinates at its new position. -/
def birdFrameX (s : State) : ℚ := nextX s + s.scrollX

/-- Local birdRect of tick. -/
def birdRect (s : State) : Rect :=
  { x := birdFrameX s, y := rawY s, width := BIRB_WIDTH, height := BIRB_HEIGHT }

/-- Local pipeHit of tick. -/
def pipeHit (s : State) : CollisionSide := collisionType (birdRect s) (inFramePipes s)

/-- Local topScreen of tick. -/
def topScreenHit (s : State) : Bool := decide (rawY s ≤ 0)

/-- Local bottomScreen of tick. -/
def bottomScreenHit (s : State) : Bool :=
  decide (rawY s + BIRB_HEIGHT ≥ CANVAS_HEIGHT)

/-- Local birdFrameXPrev of tick: frame-relative bird x before this tick. -/
def birdFrameXPrev (s : State) : ℚ := s.birdX + s.scrollX

/-- Local birdFrameXNext of tick: frame-relative bird x after this tick. -/
def birdFrameXNext (s : State) : ℚ := nextX s + (s.scrollX + SCROLL)

/-- The crossing predicate of the newlyPassed filter in tick, on a right edge. -/
def crossesAt (rightEdge : ℚ) (s : State) : Bool :=
  decide (rightEdge > birdFrameXPrev s) && decide (rightEdge ≤ birdFrameXNext s)

/-- Local newlyPassed of tick: number of visible pipes whose right edge
crosses the bird's frame-relative x during exactly this tick. -/
def newlyPassed (s : State) : ℕ :=
  (((inFramePipes s).map fun p => p.frame + PIPE_WIDTH).filter
    fun rightEdge => crossesAt rightEdge s).length

/-- Local canTakeHit of tick. -/
def canTakeHit (s : State) : Bool := decide (s.hitCooldown ≤ 0)

/-- Local anyHit of tick. -/
def anyHit (s : State) : Bool :=
  decide (pipeHit s ≠ CollisionSide.NONE) || topScreenHit s || bottomScreenHit s

/-- Local bounceVel of tick; `r` is the value of the (single, lazy)
randomNum(4, 10) draw of this tick. -/
def bounceVel (r : ℚ) (s : State) : ℚ :=
  if topScreenHit s || decide (pipeHit s = CollisionSide.TOP) then r
  else if bottomScreenHit s || decide (pipeHit s = CollisionSide.BOTTOM) then -r
  else velocityNext s

/-- Local scoreAfter of tick: passes counted this tick are discarded when a
hit is registered this tick. -/
def scoreAfter (s : State) : ℚ :=
  if anyHit s then s.score else s.score + (newlyPassed s : ℚ)

/-- Local boundedY of tick. -/
def boundedY (s : State) : ℚ :=
  if topScreenHit s then 0
  else if bottomScreenHit s then CANVAS_HEIGHT - BIRB_HEIGHT
  else rawY s

/-- Local livesAfter of tick. -/
def livesAfter (s : State) : ℚ :=
  if anyHit s && canTakeHit s then max 0 (s.birdLives - 1) else s.birdLives

/-- Local hitCooldownAfter of tick. -/
def hitCooldownAfter (s : State) : ℚ :=
  if anyHit s && canTakeHit s then 6 else max 0 (s.hitCooldown - 1)

/-- Local win of tick. -/
def winNow (s : State) : Bool := decide (scoreAfter s ≥ s.totalPipes)

/-- Local gameEndNow of tick. -/
def gameEndNow (s : State) : Bool := decide (livesAfter s ≤ 0) || winNow s

/-- One fixed simulation step (tick in the source); `r` models the
randomNum(4, 10) draw this tick would make if a bounce occurs. -/
def tick (r : ℚ) (s : State) : State :=
  { s with
    elapsedMs := elapsedMsNext s
    nextPipe := s.nextPipe + ((newPipes s).length : ℚ)
    birdVelocity := bounceVel r s
    birdY := clamp (boundedY s) 0 (CANVAS_HEIGHT - BIRB_HEIGHT)
    birdX := nextX s
    scrollX := s.scrollX + SCROLL
    pipes := inFramePipes s
    birdLives := livesAfter s
    hitCooldown := hitCooldownAfter s
    gameEnd := gameEndNow s || s.gameEnd
    score := scoreAfter s
    pending := pendingAfter s }

/-- The flap reducer of the source (the map inside flap$): overwrite
birdVelocity with -FLAP, keep every other field. -/
def flap (s : State) : State := { s with birdVelocity := -FLAP }

/-- A run of the transition function alone: `run r s n` is the state after n
ticks from s, the k-th tick drawing the random value `r k`. -/
def run (r : ℕ → ℚ) (s : State) : ℕ → State
  | 0 => s
  | n + 1 => tick (r n) (run r s n)

/-- An event of the merged reducer stream: a tick (with its random draw) or a
flap. -/
inductive Ev where
  | tickE : ℚ → Ev
  | flapE : Ev
deriving DecidableEq, Repr

/-- Apply one event's reducer to the state. -/
def applyEv : Ev → State → State
  | Ev.tickE r, s => tick r s
  | Ev.flapE, s => flap s

/-- Fold an event list through the state, as the scan in state$ does. -/
def runE : List Ev → State → State
  | [], s => s
  | e :: t, s => runE t (applyEv e s)

/-- The ids of all obstacles ever spawned over an event list, in spawn
order. -/
def spawnedIds : List Ev → State → List ℚ
  | [], _ => []
  | Ev.tickE r :: t, s => ((newPipes s).map Pipe.id) ++ spawnedIds t (tick r s)
  | Ev.flapE :: t, s => spawnedIds t (flap s)

/-! CSV parsing (csvParser in the source).  The JS string builtins it calls
(String.prototype.trim, String.prototype.split with "," and with /\r?\n/,
and the global parseFloat) are modelled on character lists. -/

/-- Accumulate a list of decimal digit characters into a natural number. -/
def digitsVal (l : List Char) : ℕ := l.foldl (fun a c => 10 * a + (c.toNat - 48)) 0

/-- Modelled JS builtin parseFloat, restricted to plain decimal literals:
optional leading whitespace, optional sign, integer digits, optional
fractional digits — the only shapes the schedule format produces.  A string
whose numeric prefix is empty yields NaN in JS; ℚ has no NaN, that case is
mapped to 0 here and no claim depends on it. -/
def parseFloat (str : List Char) : ℚ :=
  let cs := str.dropWhile Char.isWhitespace
  let sgn : ℚ := if cs.head? = some '-' then -1 else 1
  let cs1 := if cs.head? = some '-' || cs.head? = some '+' then cs.tail else cs
  let intPart := cs1.takeWhile Char.isDigit
  let rest := cs1.dropWhile Char.isDigit
  let fracPart := if rest.head? = some '.' then rest.tail.takeWhile Char.isDigit else []
  sgn * ((digitsVal intPart : ℚ) + (digitsVal fracPart : ℚ) / (10 : ℚ) ^ fracPart.length)

/-- Split a character list at every occurrence of the separator character
(JS String.prototype.split with a one-character separator). -/
def splitOnChar (c : Char) : List Char → List (List Char)
  | [] => [[]]
  | a :: t =>
    if a = c then [] :: splitOnChar c t
    else
      match splitOnChar c t with
      | [] => [[a]]
      | h :: rest => (a :: h) :: rest

/-- Split a character list into lines at every /\r?\n/ match
(JS String.prototype.split(/\r?\n/)): a newline, optionally preceded by a
carriage return, separates lines; a carriage return alone does not. -/
def splitLines : List Char → List (List Char)
  | [] => [[]]
  | '\r' :: '\n' :: t => [] :: splitLines t
  | '\n' :: t => [] :: splitLines t
  | a :: t =>
    match splitLines t with
    | [] => [[a]]
    | h :: rest => (a :: h) :: rest

/-- Strip leading and trailing whitespace (JS String.prototype.trim). -/
def trimChars (l : List Char) : List Char :=
  ((l.dropWhile Char.isWhitespace).reverse.dropWhile Char.isWhitespace).reverse

/-- Parse CSV text into the schedule (csvParser in the source): drop the
header line, split each remaining line at commas and trim the fields, keep
only rows with at least three fields, and scale the three leading fields.
The fallback row of the final match is unreachable because of the length
filter. -/
def csvParser (csv : String) : List ScheduleItem :=
  match splitLines (trimChars csv.toList) with
  | [] => []
  | _header :: rows =>
    ((rows.map fun row => (splitOnChar ',' row).map trimChars).filter
        fun cols => decide (cols.length ≥ 3)).map
      fun cols =>
        match cols with
        | gap_y :: gap_height :: time :: _ =>
          { appearTime := parseFloat time * 1000
            gapY := parseFloat gap_y * CANVAS_HEIGHT
            gapHeight := parseFloat gap_height * CANVAS_HEIGHT }
        | _ => { appearTime := 0, gapY := 0, gapHeight := 0 }

/-! Concrete inputs used by witnesses and counterexamples. -/

/-- A state whose game has already ended. -/
def endedState : State := { InitialState [] with gameEnd := true }

/-- A state about to register a floor hit while its hit cooldown is still
active. -/
def hitWithCooldownState : State :=
  { InitialState [] with birdY := 395, hitCooldown := 3 }

/-- A schedule item due on the very first tick of a fresh game. -/
def item75 : ScheduleItem := { appearTime := 75, gapY := 200, gapHeight := 100 }

/-- Initial state scheduling only item75. -/
def oneItemState : State := InitialState [item75]

/-- A schedule item whose appearTime coincides with the initial clock. -/
def item0 : ScheduleItem := { appearTime := 0, gapY := 200, gapHeight := 100 }

/-- Initial state scheduling only item0. -/
def zeroItemState : State := InitialState [item0]

/-- A constant random source for concrete runs. -/
def zeroR : ℕ → ℚ := fun _ => 0

/-- Two touching rectangles: the right edge of rectA is the left edge of
rectB. -/
def rectA : Rect := { x := 0, y := 0, width := 1, height := 1 }

/-- See rectA. -/
def rectB : Rect := { x := 1, y := 0, width := 1, height := 1 }

/-- The CSV text of the round-trip scenario. -/
def csvSample : String := "gap_y,gap_height,time\n0.5,0.25,0.0\n0.5,0.25,2.0"

/-- The CSV text of the round-trip scenario with the first data row truncated
to two fields. -/
def csvSampleShortRow : String := "gap_y,gap_height,time\n0.5,0.25\n0.5,0.25,2.0"

/-! Theorems. -/

/-- C3: for the initial state built from a schedule with zero items, a single
application of the transition function yields a state with gameEnd = true and
no obstacles spawned; the win condition score ≥ totalPipes (0 ≥ 0) triggers on
the very first tick. -/
theorem empty_schedule_ends_first_tick (r : ℚ) :
    (tick r (InitialState [])).gameEnd = true
    ∧ (tick r (InitialState [])).pipes = []
    ∧ newPipes (InitialState []) = []
    ∧ winNow (InitialState []) = true
    ∧ (InitialState []).totalPipes = 0 := by
  refine ⟨?_, ?_, ?_, ?_, ?_⟩ <;>
    norm_num +decide [tick, gameEndNow, winNow, scoreAfter, anyHit, livesAfter,
      canTakeHit, newlyPassed, inFramePipes, newPipes, dueItems, pipeHit,
      collisionType, birdRect, rawY, velocityNext, topScreenHit, bottomScreenHit,
      birdFrameX, nextX, maxX, InitialState, CANVAS_WIDTH, CANVAS_HEIGHT,
      BIRB_WIDTH, BIRB_HEIGHT, GRAVITY, SCROLL, BIRD_X, TICK_RATE_MS, PIPE_WIDTH,
      elapsedMsNext]

/-- C4: gameEnd is sticky: a tick from a state with gameEnd = true keeps
gameEnd = true, and the flap reducer leaves gameEnd untouched. -/
theorem gameEnd_sticky (r : ℚ) (s : State) (h : s.gameEnd = true) :
    (tick r s).gameEnd = true ∧ (flap s).gameEnd = true := by
  refine ⟨?_, h⟩
  show (gameEndNow s || s.gameEnd) = true
  rw [h, Bool.or_true]

/-- Witness for gameEnd_sticky at a concrete ended state. -/
theorem gameEnd_sticky_witness :
    (tick 0 endedState).gameEnd = true ∧ (flap endedState).gameEnd = true :=
  gameEnd_sticky 0 endedState rfl

/-- C7: the flap reducer unconditionally overwrites birdVelocity with -FLAP
and leaves every other field of the state unchanged. -/
theorem flap_only_sets_velocity (s : State) :
    (flap s).birdVelocity = -FLAP
    ∧ (flap s).gameEnd = s.gameEnd
    ∧ (flap s).birdY = s.birdY
    ∧ (flap s).scrollX = s.scrollX
    ∧ (flap s).pipes = s.pipes
    ∧ (flap s).nextPipe = s.nextPipe
    ∧ (flap s).nextPipeX = s.nextPipeX
    ∧ (flap s).birdX = s.birdX
    ∧ (flap s).birdLives = s.birdLives
    ∧ (flap s).hitCooldown = s.hitCooldown
    ∧ (flap s).score = s.score
    ∧ (flap s).elapsedMs = s.elapsedMs
    ∧ (flap s).pending = s.pending
    ∧ (flap s).totalPipes = s.totalPipes :=
  ⟨rfl, rfl, rfl, rfl, rfl, rfl, rfl, rfl, rfl, rfl, rfl, rfl, rfl, rfl⟩

/-- C8: overlap is the axis-aligned rectangle intersection with strict
inequality on all four half-plane tests, so two rectangles that merely touch
along an edge do not overlap. -/
theorem overlap_strict_intersection (a b : Rect) :
    (overlap a b = true ↔
      a.x < b.x + b.width ∧ a.x + a.width > b.x
        ∧ a.y < b.y + b.height ∧ a.y + a.height > b.y)
    ∧ (a.x + a.width = b.x → overlap a b = false) := by
  constructor
  · simp [overlap, and_assoc]
  · intro h
    simp [overlap, h]

/-- Witness for overlap_strict_intersection on two touching rectangles. -/
theorem overlap_strict_intersection_witness : overlap rectA rectB = false :=
  (overlap_strict_intersection rectA rectB).2 (by simp [rectA, rectB])

/-- C9: the round-trip CSV scenario: the sample text parses to exactly two
ScheduleItems with gapY = 200, gapHeight = 100 and appearTimes 0 ms and
2000 ms, the initial state built from it has totalPipes = 2, the header line
is ignored, and a line with fewer than three comma-separated fields is
silently dropped. -/
theorem csv_roundtrip_scenario :
    csvParser csvSample =
      [{ appearTime := 0, gapY := 200, gapHeight := 100 },
       { appearTime := 2000, gapY := 200, gapHeight := 100 }]
    ∧ (InitialState (csvParser csvSample)).totalPipes = 2
    ∧ csvParser csvSampleShortRow =
      [{ appearTime := 2000, gapY := 200, gapHeight := 100 }] := by
  have d0 : digitsVal ['0'] = 0 := by decide
  have d2 : digitsVal ['2'] = 2 := by decide
  have d5 : digitsVal ['5'] = 5 := by decide
  have d25 : digitsVal ['2', '5'] = 25 := by decide
  refine ⟨?_, ?_, ?_⟩ <;>
    norm_num +decide [csvParser, csvSample, csvSampleShortRow, splitLines,
      splitOnChar, trimChars, parseFloat, d0, d2, d5, d25, CANVAS_HEIGHT,
      InitialState]

lemma anyHit_eq_false_iff (s : State) :
    anyHit s = false ↔
      pipeHit s = CollisionSide.NONE ∧ topScreenHit s = false ∧ bottomScreenHit s = false := by
  simp [anyHit, and_assoc]

lemma bounceVel_of_no_hit (r : ℚ) (s : State) (h : anyHit s = false) :
    bounceVel r s = velocityNext s := by
  obtain ⟨hp, ht, hb⟩ := (anyHit_eq_false_iff s).1 h
  simp [bounceVel, hp, ht, hb]

lemma bounceVel_of_hit (r : ℚ) (s : State) (h : anyHit s = true) :
    bounceVel r s =
      if topScreenHit s || decide (pipeHit s = CollisionSide.TOP) then r else -r := by
  unfold bounceVel
  cases hps : pipeHit s with
  | TOP => simp [hps]
  | BOTTOM => simp [hps]
  | NONE =>
    simp only [anyHit, hps] at h
    cases htop : topScreenHit s with
    | true => simp [htop]
    | false =>
      simp [hps, htop] at h ⊢
      simp [h]

/-- C2 (amended): when no hit is registered this tick the velocity carries
over normally (birdVelocity + GRAVITY), the cooldown decrements by one with a
floor at 0, and lives are unchanged.  When a hit is registered, a bounce
velocity is imparted regardless of the cooldown (a randomized kick, positive
if the hit is TOP-side, negative if BOTTOM-side); the life loss and the
cooldown reset to 6 — but not the bounce — happen only when the cooldown is
currently zero, otherwise lives stay and the cooldown just decrements. -/
theorem hit_resolution (r : ℚ) (s : State) :
    (anyHit s = false →
      (tick r s).birdVelocity = s.birdVelocity + GRAVITY
      ∧ (tick r s).hitCooldown = max 0 (s.hitCooldown - 1)
      ∧ (tick r s).birdLives = s.birdLives)
    ∧ (anyHit s = true → 0 < s.hitCooldown →
      (tick r s).birdVelocity =
        (if topScreenHit s || decide (pipeHit s = CollisionSide.TOP) then r else -r)
      ∧ (tick r s).hitCooldown = max 0 (s.hitCooldown - 1)
      ∧ (tick r s).birdLives = s.birdLives)
    ∧ (anyHit s = true → s.hitCooldown ≤ 0 →
      (tick r s).birdVelocity =
        (if topScreenHit s || decide (pipeHit s = CollisionSide.TOP) then r else -r)
      ∧ (tick r s).hitCooldown = 6
      ∧ (tick r s).birdLives = max 0 (s.birdLives - 1)) := by
  refine ⟨fun h => ⟨?_, ?_, ?_⟩, fun h hc => ?_, fun h hc => ?_⟩
  · show bounceVel r s = _
    rw [bounceVel_of_no_hit r s h]; rfl
  · show hitCooldownAfter s = _
    simp [hitCooldownAfter, h]
  · show livesAfter s = _
    simp [livesAfter, h]
  · have hct : canTakeHit s = false := by
      simp [canTakeHit]; exact hc
    refine ⟨bounceVel_of_hit r s h, ?_, ?_⟩
    · show hitCooldownAfter s = _
      simp [hitCooldownAfter, h, hct]
    · show livesAfter s = _
      simp [livesAfter, h, hct]
  · have hct : canTakeHit s = true := by
      simp [canTakeHit]; exact hc
    refine ⟨bounceVel_of_hit r s h, ?_, ?_⟩
    · show hitCooldownAfter s = _
      simp [hitCooldownAfter, h, hct]
    · show livesAfter s = _
      simp [livesAfter, h, hct]

/-- Witness for hit_resolution: a fresh game's first tick has no hit and
carries velocity over; a floor hit during an active cooldown leaves lives
unchanged. -/
theorem hit_resolution_witness :
    (tick 0 (InitialState [])).birdVelocity = (InitialState []).birdVelocity + GRAVITY
    ∧ (tick 5 hitWithCooldownState).birdLives = hitWithCooldownState.birdLives :=
  ⟨((hit_resolution 0 (InitialState [])).1 (by
      norm_num +decide [anyHit, pipeHit, collisionType, birdRect, rawY, velocityNext,
        topScreenHit, bottomScreenHit, inFramePipes, newPipes, dueItems, birdFrameX,
        nextX, maxX, overlap, InitialState, CANVAS_WIDTH, CANVAS_HEIGHT, BIRB_WIDTH,
        BIRB_HEIGHT, GRAVITY, SCROLL, BIRD_X, TICK_RATE_MS, PIPE_WIDTH,
        elapsedMsNext])).1,
   (((hit_resolution 5 hitWithCooldownState).2.1 (by
      norm_num +decide [anyHit, pipeHit, collisionType, birdRect, rawY, velocityNext,
        topScreenHit, bottomScreenHit, inFramePipes, newPipes, dueItems, birdFrameX,
        nextX, maxX, overlap, InitialState, hitWithCooldownState, CANVAS_WIDTH,
        CANVAS_HEIGHT, BIRB_WIDTH, BIRB_HEIGHT, GRAVITY, SCROLL, BIRD_X,
        TICK_RATE_MS, PIPE_WIDTH, elapsedMsNext]) (by
      norm_num [hitWithCooldownState, InitialState])).2.2)⟩

/-- C2 counterexample: a floor hit while hitCooldown = 3 > 0 replaces the
velocity with the bounce kick instead of carrying birdVelocity + GRAVITY
over, refuting the claim that an active cooldown suppresses the bounce. -/
theorem bounce_ignores_cooldown_cex :
    anyHit hitWithCooldownState = true
    ∧ 0 < hitWithCooldownState.hitCooldown
    ∧ (tick 5 hitWithCooldownState).birdVelocity
        ≠ hitWithCooldownState.birdVelocity + GRAVITY := by
  refine ⟨?_, ?_, ?_⟩ <;>
    norm_num +decide [tick, bounceVel, anyHit, pipeHit, collisionType, birdRect,
      rawY, velocityNext, topScreenHit, bottomScreenHit, inFramePipes, newPipes,
      dueItems, birdFrameX, nextX, maxX, overlap, InitialState, hitWithCooldownState,
      CANVAS_WIDTH, CANVAS_HEIGHT, BIRB_WIDTH, BIRB_HEIGHT, GRAVITY, SCROLL,
      BIRD_X, TICK_RATE_MS, PIPE_WIDTH, elapsedMsNext]

lemma tick_birdY_bounds (r : ℚ) (s : State) :
    0 ≤ (tick r s).birdY ∧ (tick r s).birdY ≤ CANVAS_HEIGHT - BIRB_HEIGHT := by
  show 0 ≤ clamp (boundedY s) 0 (CANVAS_HEIGHT - BIRB_HEIGHT) ∧ _
  constructor
  · exact le_max_left _ _
  · exact max_le (by norm_num [CANVAS_HEIGHT, BIRB_HEIGHT]) (min_le_left _ _)

lemma runE_birdY_bounds :
    ∀ (evs : List Ev) (s : State),
      0 ≤ s.birdY ∧ s.birdY ≤ CANVAS_HEIGHT - BIRB_HEIGHT →
      0 ≤ (runE evs s).birdY ∧ (runE evs s).birdY ≤ CANVAS_HEIGHT - BIRB_HEIGHT
  | [], _, h => h
  | Ev.tickE r :: t, s, _ => runE_birdY_bounds t (tick r s) (tick_birdY_bounds r s)
  | Ev.flapE :: t, s, h => runE_birdY_bounds t (flap s) h

/-- C6: along every sequence of tick and flap reducer applications from the
initial state, birdY stays within [0, CANVAS_HEIGHT - BIRB_HEIGHT]; the tick
hard-clamps the vertical position and the flap reducer does not change
birdY. -/
theorem birdY_within_viewport (sched : List ScheduleItem) (evs : List Ev) :
    (0 ≤ (runE evs (InitialState sched)).birdY
      ∧ (runE evs (InitialState sched)).birdY ≤ CANVAS_HEIGHT - BIRB_HEIGHT)
    ∧ ∀ s : State, (flap s).birdY = s.birdY := by
  refine ⟨runE_birdY_bounds evs (InitialState sched) ?_, fun s => rfl⟩
  norm_num [InitialState, CANVAS_HEIGHT, BIRB_HEIGHT]

lemma newPipes_ids (s : State) :
    (newPipes s).map Pipe.id
      = (List.range (dueItems s).length).map fun i : ℕ => s.nextPipe + (i : ℚ) := by
  unfold newPipes
  rw [List.map_map, List.enum_eq_zip_range]
  have hco :
      (Pipe.id ∘ fun p : ℕ × ScheduleItem =>
        ({ id := s.nextPipe + (p.1 : ℚ)
           frame := scrollPerMs * p.2.appearTime + CANVAS_WIDTH + PIPE_WIDTH
           gapY := p.2.gapY
           gapHeight := p.2.gapHeight } : Pipe))
      = (fun i : ℕ => s.nextPipe + (i : ℚ)) ∘ Prod.fst := rfl
  rw [hco, ← List.map_map, List.map_fst_zip _ _ (by simp)]

lemma newPipes_length (s : State) : (newPipes s).length = (dueItems s).length := by
  simp [newPipes]

lemma range_map_add_pairwise (c : ℚ) (n : ℕ) :
    List.Pairwise (· < ·) ((List.range n).map fun i : ℕ => c + (i : ℚ)) := by
  refine List.Pairwise.map _ ?_ (List.pairwise_lt_range n)
  intro a b hab
  have hq : (a : ℚ) < (b : ℚ) := by exact_mod_cast hab
  linarith

lemma mem_range_map_add {c x : ℚ} {n : ℕ}
    (hx : x ∈ (List.range n).map fun i : ℕ => c + (i : ℚ)) :
    c ≤ x ∧ x < c + (n : ℚ) := by
  obtain ⟨i, hi, rfl⟩ := List.mem_map.1 hx
  have hin : i < n := List.mem_range.1 hi
  constructor
  · have hz : (0 : ℚ) ≤ (i : ℚ) := by positivity
    linarith
  · have hq : (i : ℚ) < (n : ℚ) := by exact_mod_cast hin
    linarith

lemma spawnedIds_invariant :
    ∀ (evs : List Ev) (s : State),
      (runE evs s).nextPipe = s.nextPipe + ((spawnedIds evs s).length : ℚ)
      ∧ (∀ x ∈ spawnedIds evs s, s.nextPipe ≤ x)
      ∧ List.Pairwise (· < ·) (spawnedIds evs s)
  | [], s => by simp [runE, spawnedIds]
  | Ev.flapE :: t, s => by
    have ih := spawnedIds_invariant t (flap s)
    simpa [runE, spawnedIds, applyEv, flap] using ih
  | Ev.tickE r :: t, s => by
    obtain ⟨ih1, ih2, ih3⟩ := spawnedIds_invariant t (tick r s)
    have hnp : (tick r s).nextPipe = s.nextPipe + ((newPipes s).length : ℚ) := rfl
    have hids := newPipes_ids s
    refine ⟨?_, ?_, ?_⟩
    · show (runE t (tick r s)).nextPipe = _
      rw [ih1, hnp]
      simp [spawnedIds]
      ring
    · intro x hx
      have hx' : x ∈ ((newPipes s).map Pipe.id) ++ spawnedIds t (tick r s) := hx
      rcases List.mem_append.1 hx' with hA | hB
      · rw [hids] at hA
        exact (mem_range_map_add hA).1
      · have hb := ih2 x hB
        rw [hnp] at hb
        have hz : (0 : ℚ) ≤ ((newPipes s).length : ℚ) := by positivity
        linarith
    · show List.Pairwise (· < ·) (((newPipes s).map Pipe.id) ++ spawnedIds t (tick r s))
      refine List.pairwise_append.2 ⟨?_, ih3, ?_⟩
      · rw [hids]
        exact range_map_add_pairwise _ _
      · intro a ha b hb
        rw [hids] at ha
        have haub := (mem_range_map_add ha).2
        have hbl := ih2 b hb
        rw [hnp, newPipes_length] at hbl
        linarith

/-- C5: over every run (any interleaving of ticks and flaps from an initial
state), the ids of the obstacles ever spawned are strictly increasing in
spawn order — hence pairwise distinct — and nextPipe always equals (so in
particular is at least) the count of obstacles ever spawned. -/
theorem obstacle_ids_strictly_increasing (sched : List ScheduleItem) (evs : List Ev) :
    List.Pairwise (· < ·) (spawnedIds evs (InitialState sched))
    ∧ (spawnedIds evs (InitialState sched)).Nodup
    ∧ (runE evs (InitialState sched)).nextPipe
        = ((spawnedIds evs (InitialState sched)).length : ℚ)
    ∧ ((spawnedIds evs (InitialState sched)).length : ℚ)
        ≤ (runE evs (InitialState sched)).nextPipe := by
  obtain ⟨h1, _h2, h3⟩ := spawnedIds_invariant evs (InitialState sched)
  have hz : (InitialState sched).nextPipe = 0 := rfl
  refine ⟨h3, List.Pairwise.imp ne_of_lt h3, ?_, ?_⟩
  · rw [h1, hz, zero_add]
  · rw [h1, hz, zero_add]

lemma birdFrameXPrev_tick (r : ℚ) (s : State) :
    birdFrameXPrev (tick r s) = birdFrameXNext s := rfl

lemma tick_birdX_le (r : ℚ) (s : State) : (tick r s).birdX ≤ maxX :=
  min_le_left _ _

lemma prev_lt_next (s : State) (h : s.birdX ≤ maxX) :
    birdFrameXPrev s < birdFrameXNext s := by
  have h1 : s.birdX ≤ min maxX (s.birdX + BIRD_X) := le_min h (by norm_num [BIRD_X])
  have h2 : (0 : ℚ) < SCROLL := by norm_num [SCROLL]
  unfold birdFrameXPrev birdFrameXNext nextX at *
  linarith

lemma run_prev_mono (r : ℕ → ℚ) (s : State) (m : ℕ) (hm : 0 < m) :
    ∀ n, m ≤ n → birdFrameXPrev (run r s m) ≤ birdFrameXPrev (run r s n) := by
  intro n hn
  induction n, hn using Nat.le_induction with
  | base => exact le_refl _
  | succ n hmn ih =>
    refine le_trans ih ?_
    have hn1 : 0 < n := lt_of_lt_of_le hm hmn
    obtain ⟨k, rfl⟩ : ∃ k, n = k + 1 := ⟨n - 1, by omega⟩
    have hb : (run r s (k + 1)).birdX ≤ maxX := tick_birdX_le (r k) (run r s k)
    have hlt := prev_lt_next (run r s (k + 1)) hb
    rw [show run r s (k + 1 + 1) = tick (r (k + 1)) (run r s (k + 1)) from rfl,
      birdFrameXPrev_tick]
    exact le_of_lt hlt

lemma crossesAt_iff (x : ℚ) (s : State) :
    crossesAt x s = true ↔ birdFrameXPrev s < x ∧ x ≤ birdFrameXNext s := by
  simp [crossesAt]

lemma crossesAt_later_false (r : ℕ → ℚ) (s : State) (x : ℚ) {m n : ℕ}
    (hmn : m < n) (hc : crossesAt x (run r s m) = true) :
    crossesAt x (run r s n) = false := by
  obtain ⟨_h1, h2⟩ := (crossesAt_iff _ _).1 hc
  have h2' : x ≤ birdFrameXPrev (run r s (m + 1)) := by
    rw [show run r s (m + 1) = tick (r m) (run r s m) from rfl, birdFrameXPrev_tick]
    exact h2
  have hmono : birdFrameXPrev (run r s (m + 1)) ≤ birdFrameXPrev (run r s n) :=
    run_prev_mono r s (m + 1) (Nat.succ_pos m) n hmn
  have hnot : ¬ birdFrameXPrev (run r s n) < x := not_lt.2 (le_trans h2' hmono)
  cases hcn : crossesAt x (run r s n) with
  | false => rfl
  | true => exact absurd ((crossesAt_iff _ _).1 hcn).1 hnot

/-- C10: consecutive ticks' pass-crossing windows are contiguous and
disjoint: the frame-relative previous x-position of the successor tick equals
the frame-relative next x-position of the current tick, a fixed right edge
satisfies the crossing predicate in at most one tick of a run, and a right
edge that crossed at tick m is never again in the filtered newly-passed list
of any later tick — a pass discarded on a hit tick is permanently lost, not
deferred. -/
theorem pass_window_contiguous_disjoint (r : ℕ → ℚ) (s : State) (x : ℚ) (m n : ℕ) :
    birdFrameXPrev (run r s (m + 1)) = birdFrameXNext (run r s m)
    ∧ (m < n → crossesAt x (run r s m) = true → crossesAt x (run r s n) = false)
    ∧ (m < n → crossesAt x (run r s m) = true →
        x ∉ ((inFramePipes (run r s n)).map fun p => p.frame + PIPE_WIDTH).filter
            fun e => crossesAt e (run r s n)) := by
  refine ⟨?_, fun hmn hc => crossesAt_later_false r s x hmn hc, fun hmn hc hmem => ?_⟩
  · rw [show run r s (m + 1) = tick (r m) (run r s m) from rfl, birdFrameXPrev_tick]
  · have hfalse := crossesAt_later_false r s x hmn hc
    have htrue := (List.mem_filter.1 hmem).2
    rw [hfalse] at htrue
    exact Bool.false_ne_true htrue

/-- Witness for pass_window_contiguous_disjoint: the world x-coordinate 165
crosses the bird on the first tick of a fresh empty-schedule game and no
longer satisfies the crossing predicate on the second. -/
theorem pass_window_contiguous_disjoint_witness :
    crossesAt 165 (run zeroR (InitialState []) 0) = true
    ∧ crossesAt 165 (run zeroR (InitialState []) 1) = false :=
  ⟨by
    norm_num +decide [run, crossesAt, birdFrameXPrev, birdFrameXNext, nextX, maxX,
      InitialState, CANVAS_WIDTH, BIRB_WIDTH, BIRD_X, SCROLL],
   (pass_window_contiguous_disjoint zeroR (InitialState []) 165 0 1).2.1
    (by norm_num)
    (by
      norm_num +decide [run, crossesAt, birdFrameXPrev, birdFrameXNext, nextX, maxX,
        InitialState, CANVAS_WIDTH, BIRB_WIDTH, BIRD_X, SCROLL])⟩

lemma tick_elapsedMs (r : ℚ) (s : State) :
    (tick r s).elapsedMs = s.elapsedMs + TICK_RATE_MS := rfl

lemma run_elapsedMs (r : ℕ → ℚ) (s : State) :
    ∀ n : ℕ, (run r s n).elapsedMs = s.elapsedMs + (n : ℚ) * TICK_RATE_MS
  | 0 => by simp [run]
  | n + 1 => by
    rw [show run r s (n + 1) = tick (r n) (run r s n) from rfl, tick_elapsedMs,
      run_elapsedMs r s n]
    push_cast
    ring

lemma mem_dueItems (it : ScheduleItem) (s : State) :
    it ∈ dueItems s ↔
      it ∈ s.pending ∧ s.elapsedMs < it.appearTime
        ∧ it.appearTime ≤ s.elapsedMs + TICK_RATE_MS := by
  simp [dueItems, List.mem_filter, elapsedMsNext, and_assoc]

lemma mem_pending_tick (it : ScheduleItem) (r : ℚ) (s : State) :
    it ∈ (tick r s).pending ↔
      it ∈ s.pending ∧ s.elapsedMs + TICK_RATE_MS < it.appearTime := by
  show it ∈ pendingAfter s ↔ _
  simp [pendingAfter, List.mem_filter, elapsedMsNext]

lemma mem_pending_run (r : ℕ → ℚ) (s : State) (it : ScheduleItem) :
    ∀ n : ℕ, it ∈ (run r s (n + 1)).pending ↔
      it ∈ s.pending ∧ s.elapsedMs + ((n : ℚ) + 1) * TICK_RATE_MS < it.appearTime
  | 0 => by
    rw [show run r s 1 = tick (r 0) (run r s 0) from rfl, mem_pending_tick]
    norm_num [run]
  | n + 1 => by
    have hT : (0 : ℚ) < TICK_RATE_MS := by norm_num [TICK_RATE_MS]
    rw [show run r s (n + 2) = tick (r (n + 1)) (run r s (n + 1)) from rfl,
      mem_pending_tick, run_elapsedMs, mem_pending_run r s it n]
    constructor
    · rintro ⟨⟨h1, -⟩, h3⟩
      refine ⟨h1, ?_⟩
      push_cast at h3 ⊢
      linarith
    · rintro ⟨h1, h2⟩
      push_cast at h2
      refine ⟨⟨h1, by linarith⟩, by push_cast; linarith⟩

lemma mem_dueItems_run (r : ℕ → ℚ) (s : State) (it : ScheduleItem) (n : ℕ) :
    it ∈ dueItems (run r s n) ↔
      it ∈ s.pending ∧ s.elapsedMs + (n : ℚ) * TICK_RATE_MS < it.appearTime
        ∧ it.appearTime ≤ s.elapsedMs + ((n : ℚ) + 1) * TICK_RATE_MS := by
  have hT : (0 : ℚ) < TICK_RATE_MS := by norm_num [TICK_RATE_MS]
  cases n with
  | zero =>
    rw [mem_dueItems]
    norm_num [run]
  | succ k =>
    rw [mem_dueItems, run_elapsedMs, mem_pending_run r s it k]
    constructor
    · rintro ⟨⟨h1, h2⟩, h3, h4⟩
      refine ⟨h1, ?_, ?_⟩ <;> push_cast at * <;> linarith
    · rintro ⟨h1, h2, h3⟩
      push_cast at h2 h3
      refine ⟨⟨h1, by linarith⟩, by push_cast; linarith, by push_cast; linarith⟩

lemma window_unique {e a T : ℚ} (hT : 0 < T) {m n : ℕ}
    (hm : e + (m : ℚ) * T < a ∧ a ≤ e + ((m : ℚ) + 1) * T)
    (hn : e + (n : ℚ) * T < a ∧ a ≤ e + ((n : ℚ) + 1) * T) : m = n := by
  by_contra hne
  rcases Nat.lt_or_ge m n with h | h
  · have hc : (m : ℚ) + 1 ≤ (n : ℚ) := by exact_mod_cast Nat.succ_le_of_lt h
    have hmul := mul_le_mul_of_nonneg_right hc hT.le
    linarith [hm.2, hn.1]
  · have hlt : n < m := lt_of_le_of_ne h (Ne.symm hne)
    have hc : (n : ℚ) + 1 ≤ (m : ℚ) := by exact_mod_cast Nat.succ_le_of_lt hlt
    have hmul := mul_le_mul_of_nonneg_right hc hT.le
    linarith [hn.2, hm.1]

lemma exists_window (e a T : ℚ) (hT : 0 < T) (ha : e < a) :
    ∃ n : ℕ, e + (n : ℚ) * T < a ∧ a ≤ e + ((n : ℚ) + 1) * T := by
  set q : ℚ := (a - e) / T with hq
  have hq0 : 0 < q := div_pos (by linarith) hT
  have hk1 : 0 < ⌈q⌉ := Int.ceil_pos.2 hq0
  refine ⟨(⌈q⌉ - 1).toNat, ?_, ?_⟩
  all_goals
    have hnn : ((⌈q⌉ - 1).toNat : ℤ) = ⌈q⌉ - 1 := Int.toNat_of_nonneg (by omega)
    have hcast : (((⌈q⌉ - 1).toNat : ℕ) : ℚ) = (⌈q⌉ : ℚ) - 1 := by exact_mod_cast hnn
    have hqT : q * T = a - e := div_mul_cancel₀ _ (ne_of_gt hT)
  · have hlt : (⌈q⌉ : ℚ) - 1 < q := by
      have := Int.ceil_lt_add_one q
      linarith
    rw [hcast]
    nlinarith [mul_lt_mul_of_pos_right hlt hT]
  · have hle : q ≤ (⌈q⌉ : ℚ) := Int.le_ceil q
    rw [hcast]
    nlinarith [mul_le_mul_of_nonneg_right hle hT.le]

lemma exists_enumFrom_snd {α : Type} :
    ∀ (l : List α) (k : ℕ) (a : α), a ∈ l →
      ∃ pr : ℕ × α, pr ∈ l.enumFrom k ∧ pr.2 = a
  | [], _, a, h => absurd h (List.not_mem_nil a)
  | b :: t, k, a, h => by
    rcases List.mem_cons.1 h with h1 | h2
    · exact ⟨(k, b), List.mem_cons_self _ _, h1.symm⟩
    · obtain ⟨pr, hm, he⟩ := exists_enumFrom_snd t (k + 1) a h2
      exact ⟨pr, List.mem_cons_of_mem _ hm, he⟩

lemma due_spawns (s : State) (it : ScheduleItem) (h : it ∈ dueItems s) :
    ∃ p, p ∈ newPipes s ∧ p.gapY = it.gapY ∧ p.gapHeight = it.gapHeight := by
  obtain ⟨pr, hm, he⟩ := exists_enumFrom_snd (dueItems s) 0 it h
  exact ⟨_, List.mem_map_of_mem _ hm, by rw [he], by rw [he]⟩

/-- C1 (amended): a ScheduleItem of the pending list whose appearTime is
strictly greater than the state's elapsedMs is selected as due on exactly one
tick of the run — the tick whose interval (elapsedMs, elapsedMs + STEP]
contains its appearTime — it leaves pending exactly on that tick, and a new
obstacle with its gap data is spawned on that tick.  (An item with appearTime
at or before the starting clock — e.g. appearTime = 0 at game start — is
instead dropped without ever being selected; see the counterexample.) -/
theorem schedule_item_due_once (r : ℕ → ℚ) (s : State) (it : ScheduleItem)
    (hmem : it ∈ s.pending) (hafter : s.elapsedMs < it.appearTime) :
    (∃! n : ℕ, it ∈ dueItems (run r s n))
    ∧ (∀ n : ℕ,
        (it ∈ (run r s n).pending ∧ it ∉ (run r s (n + 1)).pending)
          ↔ it ∈ dueItems (run r s n))
    ∧ (∀ n : ℕ, it ∈ dueItems (run r s n) →
        ∃ p, p ∈ newPipes (run r s n) ∧ p.gapY = it.gapY ∧ p.gapHeight = it.gapHeight) := by
  have hT : (0 : ℚ) < TICK_RATE_MS := by norm_num [TICK_RATE_MS]
  refine ⟨?_, ?_, fun n hd => due_spawns _ it hd⟩
  · obtain ⟨n, hn1, hn2⟩ := exists_window s.elapsedMs it.appearTime TICK_RATE_MS hT hafter
    refine ⟨n, (mem_dueItems_run r s it n).2 ⟨hmem, hn1, hn2⟩, ?_⟩
    intro m hm
    obtain ⟨-, hm1, hm2⟩ := (mem_dueItems_run r s it m).1 hm
    exact window_unique hT ⟨hm1, hm2⟩ ⟨hn1, hn2⟩
  · intro n
    cases n with
    | zero =>
      rw [show (run r s 0).pending = s.pending from rfl, mem_pending_run r s it 0,
        mem_dueItems_run r s it 0]
      push_cast
      constructor
      · rintro ⟨-, h2⟩
        refine ⟨hmem, by linarith, ?_⟩
        by_contra hgt
        push_neg at hgt
        exact h2 ⟨hmem, by linarith⟩
      · rintro ⟨-, -, h3⟩
        exact ⟨hmem, fun hcon => by linarith [hcon.2]⟩
    | succ k =>
      rw [mem_pending_run r s it k, mem_pending_run r s it (k + 1),
        mem_dueItems_run r s it (k + 1)]
      push_cast
      constructor
      · rintro ⟨⟨-, h2⟩, h3⟩
        refine ⟨hmem, by linarith, ?_⟩
        by_contra hgt
        push_neg at hgt
        exact h3 ⟨hmem, by linarith⟩
      · rintro ⟨-, h2, h3⟩
        exact ⟨⟨hmem, by linarith⟩, fun hcon => by linarith [hcon.2]⟩

/-- Witness for schedule_item_due_once: the single item at appearTime = 75 ms
of a fresh game is due on exactly one tick. -/
theorem schedule_item_due_once_witness :
    ∃! n : ℕ, item75 ∈ dueItems (run zeroR oneItemState n) :=
  (schedule_item_due_once zeroR oneItemState item75
    (by simp [oneItemState, InitialState])
    (by norm_num [oneItemState, item75, InitialState])).1

/-- C1 counterexample: the item with appearTime = 0 is pending in the initial
state and leaves pending on the very first tick, yet 0 does not lie in the
half-open interval (0, 50] of that tick: the due list is empty, no obstacle is
spawned, and — pending being empty afterwards — the item is never selected on
any tick of the run. -/
theorem item_at_time_zero_never_selected :
    item0 ∈ zeroItemState.pending
    ∧ (tick 0 zeroItemState).pending = []
    ∧ dueItems zeroItemState = []
    ∧ newPipes zeroItemState = []
    ∧ (tick 0 zeroItemState).pipes = [] := by
  refine ⟨by simp [zeroItemState, InitialState], ?_, ?_, ?_, ?_⟩ <;>
    norm_num +decide [zeroItemState, item0, InitialState, tick, pendingAfter,
      dueItems, newPipes, inFramePipes, elapsedMsNext, TICK_RATE_MS]

end FlappyBirb
